import Mathlib

/-!
Shallow embedding of the resilient-fetch core of `mstarpy` (`src/mstarpy/api.py`):
the single-request retry/backoff/redirect engine `request_with_retry` and the
multi-page aggregation loop `fetch_all_items_robust`, together with theorems
settling the spec claims about them.

The network is modelled as a `Transport`: a function from the index of the
physical HTTP request (a global counter, in issue order) to its outcome, either
a transport-level fault (`requests.RequestException` and friends raised by
`requests.request`) or a decoded response.  Randomness (the jitter drawn by
`random.uniform(0, 1)`) is an explicit stream of rational draws.
-/

/-- A value stored in a Python query-parameter dict (`str` or `int` entries). -/
inductive Val where
  | str : String → Val
  | int : Int → Val
deriving DecidableEq

/-- A Python dict with string keys, as an insertion-ordered association list. -/
abbrev Dict := List (String × Val)

/-- Python dict assignment `d[k] = v`: replaces the value in place when the key
is present (keeping its position), otherwise appends the new entry. -/
def dictSet : Dict → String → Val → Dict
  | [], k, v => [(k, v)]
  | (k0, v0) :: rest, k, v =>
    if k0 = k then (k, v) :: rest else (k0, v0) :: dictSet rest k v

/-- The body of an HTTP response as `fetch_all_items_robust` decodes it:
either not valid JSON (`response.json()` raises `ValueError`), or a JSON object
with optional `rows`, `total` and `pageSize` fields (api.py lines 66-76 read
them with `data.get`, so each may be absent). -/
inductive Body (α : Type) where
  | notJson : Body α
  | obj : Option (List α) → Option Int → Option Int → Body α
deriving DecidableEq

/-- An HTTP response: status code, optional `Location` header, body. -/
structure Response (α : Type) where
  status : Nat
  location : Option String
  body : Body α
deriving DecidableEq

/-- A transport-level fault raised by `requests.request` itself
(connection error, timeout, ...). -/
structure Fault where
  msg : String
deriving DecidableEq

/-- Outcome of one physical HTTP request. -/
inductive Outcome (α : Type) where
  | fault : Fault → Outcome α
  | response : Response α → Outcome α
deriving DecidableEq

/-- The network: outcome of the `n`-th physical request, in issue order. -/
abbrev Transport (α : Type) := Nat → Outcome α

/-- One physical request as issued on the wire (the arguments the code passes
to `requests.request`). -/
structure PhysReq where
  method : String
  url : String
  headers : Dict
  reqData : Option String
  params : Dict
deriving DecidableEq

/-- An exception caught by the `except (requests.RequestException,
requests.Timeout, requests.ConnectionError)` clause of `request_with_retry`:
either a transport fault, or the `requests.HTTPError` that
`res.raise_for_status()` raises on a 4xx/5xx status. -/
inductive Exn where
  | transport : Fault → Exn
  | httpError : Nat → Exn
deriving DecidableEq

/-- Python's `math.ceil(a / b)` on integers (for `b > 0`). -/
def ceilDiv (a b : Int) : Int := -((-a).fdiv b)

/-- Outcome of the inner redirect-following loop. -/
inductive RedirOut (α : Type) where
  | done : Response α → RedirOut α
  | fault : Fault → RedirOut α
  | keyErr : RedirOut α
deriving DecidableEq

/-- The redirect loop of `request_with_retry` (api.py lines 115-123):
`while res.status_code in [301, 307] and redirect_count <= 5`, read the
`Location` header (a missing header raises an uncaught `KeyError`), re-issue
the identical request against the new URL, increment the counter.  `n` is the
index of the next physical request.  The guard `rc ≤ 5` admits at most 6
iterations, so entering with fuel 7 makes the fuel-0 branch unreachable. -/
def redirectLoop (transport : Transport α) (method : String) (headers : Dict)
    (reqData : Option String) (rparams : Dict) :
    Nat → Nat → Response α → Nat → Nat × List PhysReq × RedirOut α
  | 0, n, res, _ => (n, [], .done res)
  | fuel + 1, n, res, rc =>
    if (res.status = 301 ∨ res.status = 307) ∧ rc ≤ 5 then
      match res.location with
      | none => (n, [], .keyErr)
      | some loc =>
        match transport n with
        | .fault f => (n + 1, [⟨method, loc, headers, reqData, rparams⟩], .fault f)
        | .response res2 =>
          let rest :=
            redirectLoop transport method headers reqData rparams fuel (n + 1) res2 (rc + 1)
          (rest.1, ⟨method, loc, headers, reqData, rparams⟩ :: rest.2.1, rest.2.2)
    else (n, [], .done res)

/-- Result of one iteration of the retry loop's `try` block. -/
inductive AttemptOut (α : Type) where
  | ok : Response α → AttemptOut α
  | exn : Exn → AttemptOut α
  | keyErr : AttemptOut α
deriving DecidableEq

/-- One iteration of the retry loop's `try` block (api.py lines 112-126):
issue the request with redirects disabled, follow 301/307 manually, then
`res.raise_for_status()` (which raises `requests.HTTPError` exactly when
`400 ≤ status < 600`) and return the response.  Returns the next physical
request counter, the requests issued, and the outcome. -/
def attemptOnce (transport : Transport α) (method url : String) (headers : Dict)
    (reqData : Option String) (rparams : Dict) (n : Nat) :
    Nat × List PhysReq × AttemptOut α :=
  let req : PhysReq := ⟨method, url, headers, reqData, rparams⟩
  match transport n with
  | .fault f => (n + 1, [req], .exn (.transport f))
  | .response res =>
    let rl := redirectLoop transport method headers reqData rparams 7 (n + 1) res 0
    match rl.2.2 with
    | .keyErr => (rl.1, req :: rl.2.1, .keyErr)
    | .fault f => (rl.1, req :: rl.2.1, .exn (.transport f))
    | .done res2 =>
      if 400 ≤ res2.status ∧ res2.status < 600 then
        (rl.1, req :: rl.2.1, .exn (.httpError res2.status))
      else
        (rl.1, req :: rl.2.1, .ok res2)

/-- How `request_with_retry` ends: a returned response, the re-raised last
exception once the budget is exhausted (with the logged message), an uncaught
`KeyError` from a missing `Location` header, or the unreachable fall-through of
api.py line 139. -/
inductive RwrResult (α : Type) where
  | ok : Response α → RwrResult α
  | raised : String → Exn → RwrResult α
  | keyErr : RwrResult α
  | fellThrough : RwrResult α
deriving DecidableEq

/-- Observable run of `request_with_retry`: the next physical request counter,
the physical requests issued in order, the backoff delays slept between failed
attempts, and the result. -/
structure RwrRun (α : Type) where
  nextCounter : Nat
  requests : List PhysReq
  delays : List ℚ
  result : RwrResult α
deriving DecidableEq

/-- The message printed when the retry budget is exhausted
(api.py line 132), carried on the re-raised failure. -/
def exhaustMsg (maxRetries : Nat) (url : String) : String :=
  "All " ++ toString maxRetries ++ " retries failed for " ++ url

/-- The retry loop of `request_with_retry` (api.py lines 110-138):
`while retry_count <= max_retries`, run one attempt; on success return the
response; on a caught exception increment `retry_count`; if it now exceeds
`max_retries` re-raise the last exception, otherwise sleep
`backoff_factor * 2 ** (retry_count - 1) + random.uniform(0, 1)` and retry.
`fuel` is `maxRetries + 1 - rc` at every call, so the fuel-0 branch (the
unreachable api.py line 139) is never taken from the entry point. -/
def retryLoop (transport : Transport α) (method url : String) (headers : Dict)
    (reqData : Option String) (rparams : Dict) (maxRetries : Nat) (backoff : ℚ)
    (jitter : Nat → ℚ) : Nat → Nat → Nat → RwrRun α
  | 0, n, _ => ⟨n, [], [], .fellThrough⟩
  | fuel + 1, n, rc =>
    if rc ≤ maxRetries then
      let at1 := attemptOnce transport method url headers reqData rparams n
      match at1.2.2 with
      | .ok res => ⟨at1.1, at1.2.1, [], .ok res⟩
      | .keyErr => ⟨at1.1, at1.2.1, [], .keyErr⟩
      | .exn e =>
        if rc + 1 > maxRetries then
          ⟨at1.1, at1.2.1, [], .raised (exhaustMsg maxRetries url) e⟩
        else
          let d := backoff * 2 ^ rc + jitter rc
          let rest := retryLoop transport method url headers reqData rparams maxRetries
            backoff jitter fuel at1.1 (rc + 1)
          ⟨rest.nextCounter, at1.2.1 ++ rest.requests, d :: rest.delays, rest.result⟩
    else ⟨n, [], [], .fellThrough⟩

/-- `request_with_retry` (api.py lines 91-139): run the retry loop from
`retry_count = 0`, with enough fuel for its `maxRetries + 1` iterations. -/
def request_with_retry (transport : Transport α) (method url : String)
    (headers : Dict) (reqData : Option String) (rparams : Dict) (maxRetries : Nat)
    (backoff : ℚ) (jitter : Nat → ℚ) (n : Nat) : RwrRun α :=
  retryLoop transport method url headers reqData rparams maxRetries backoff jitter
    (maxRetries + 1) n 0

/-- How `fetch_all_items_robust` ends: the accumulated rows, the re-raised
JSON `ValueError`/`TypeError` (api.py lines 85-87), or an error propagated
from `request_with_retry`. -/
inductive FetchResult (α : Type) where
  | ok : List α → FetchResult α
  | decodeError : FetchResult α
  | netError : String → Exn → FetchResult α
  | keyErr : FetchResult α
  | fellThrough : FetchResult α
deriving DecidableEq

/-- The page size used by the termination computation (api.py line 76):
`page_size = data.get('pageSize', len(rows))`. -/
def pageSizeUsed (rows : List α) (pageSize : Option Int) : Int :=
  pageSize.getD (rows.length : Int)

/-- The page-size selection as the spec's words state it (spec 4.2 step f):
`envelope.pageSize` if present and positive, else `len(rows)`.  Kept separate
from `pageSizeUsed` (the code's selection) so the two can be compared. -/
def pageSizeSpec (rows : List α) (pageSize : Option Int) : Int :=
  match pageSize with
  | some p => if 0 < p then p else (rows.length : Int)
  | none => (rows.length : Int)

/-- The pagination loop of `fetch_all_items_robust` (api.py lines 35-89):
copy the caller params, inject the 1-based `page` key, call
`request_with_retry` (always with its default budget 3 and backoff 1.0), break
on an empty `rows`, extend the accumulator, and break when
`page_size > 0` and `current_page >= math.ceil(total / page_size)`.
Returns the issued requests and `some` result, or `none` in the first
component of `Option` when the page fuel runs out (the Python loop is
unbounded). -/
def fetchLoop (transport : Transport α) (jitter : Nat → ℚ) (base_url : String)
    (params : Dict) (headers : Dict) :
    Nat → Nat → Nat → List α → List PhysReq × Option (FetchResult α)
  | 0, _, _, _ => ([], none)
  | fuel + 1, n, page, acc =>
    let request_params := dictSet params "page" (.int (page : Int))
    let run := request_with_retry transport "GET" base_url headers none
      request_params 3 1 jitter n
    match run.result with
    | .raised msg e => (run.requests, some (.netError msg e))
    | .keyErr => (run.requests, some .keyErr)
    | .fellThrough => (run.requests, some .fellThrough)
    | .ok res =>
      match res.body with
      | .notJson => (run.requests, some .decodeError)
      | .obj rowsOpt totalOpt psOpt =>
        let rows := rowsOpt.getD []
        if rows.isEmpty then (run.requests, some (.ok acc))
        else
          let acc2 := acc ++ rows
          let total := totalOpt.getD 0
          let page_size := pageSizeUsed rows psOpt
          if 0 < page_size ∧ (page : Int) ≥ ceilDiv total page_size then
            (run.requests, some (.ok acc2))
          else
            let rest := fetchLoop transport jitter base_url params headers fuel
              run.nextCounter (page + 1) acc2
            (run.requests ++ rest.1, rest.2)

/-- Observable run of `fetch_all_items_robust`: the requests issued, the
outcome (`none` when the page fuel ran out), and the content of the
caller-supplied `params` dict after the call. -/
structure FetchRun (α : Type) where
  requests : List PhysReq
  outcome : Option (FetchResult α)
  finalParams : Dict
deriving DecidableEq

/-- `fetch_all_items_robust` (api.py lines 8-89).  `max_retries` is accepted
but never used: the retry block that consumed it (lines 47-63) is commented
out, and `request_with_retry` is called without it, hence with its own default
budget 3.  The caller's dict is only ever copied (`params.copy()`, line 36),
so its content after the call is the unchanged `params`. -/
def fetch_all_items_robust (transport : Transport α) (jitter : Nat → ℚ)
    (ua : String) (base_url : String) (params : Option Dict) (max_retries : Nat)
    (fuel : Nat) (n : Nat) : FetchRun α :=
  let ps := params.getD []
  let headers : Dict := [("user-agent", .str ua)]
  let run := fetchLoop transport jitter base_url ps headers fuel n 1 []
  ⟨run.1, run.2, ps⟩

/-!
### Concrete mock transports used by counterexamples and witnesses
-/

/-- Mock for C1: pages 1 and 2 return non-empty rows, page 3 is empty, and
`total` and `pageSize` are absent from every envelope. -/
def transportC1 : Transport Nat := fun n =>
  .response ⟨200, none,
    .obj (some (if n = 0 then [1, 2] else if n = 1 then [3, 4] else [])) none none⟩

/-- The run of the collector against `transportC1`. -/
def runC1 : FetchRun Nat :=
  fetch_all_items_robust transportC1 (fun _ => 0) "ua" "u" (some []) 3 10 0

/-- Mock for C2: page 1 reports `total = 3` and an explicit `pageSize = 0`
with 3 rows; page 2 is empty. -/
def transportC2 : Transport Nat := fun n =>
  if n = 0 then .response ⟨200, none, .obj (some [1, 2, 3]) (some 3) (some 0)⟩
  else .response ⟨200, none, .obj (some []) (some 3) (some 0)⟩

/-- The run of the collector against `transportC2`. -/
def runC2 : FetchRun Nat :=
  fetch_all_items_robust transportC2 (fun _ => 0) "ua" "u" (some []) 3 10 0

/-- The URL of hop `k` in a redirect chain. -/
def urlAt (k : Nat) : String := "u" ++ toString k

/-- Mock for C3: the first `r` physical requests answer 301 with a `Location`
pointing at the next URL in the chain; every later request answers 200. -/
def chainTransport (r : Nat) : Transport Nat := fun i =>
  if i < r then .response ⟨301, some (urlAt (i + 1)), .obj none none none⟩
  else .response ⟨200, none, .obj none none none⟩

/-- One call of `request_with_retry` (budget 3, backoff 1) against a chain of
`r` consecutive redirects. -/
def chainRun (r : Nat) : RwrRun Nat :=
  request_with_retry (chainTransport r) "GET" (urlAt 0) [] none [] 3 1 (fun _ => 0) 0

/-- Mock for C4: every physical request answers with the fixed status `s`. -/
def constTransport (s : Nat) : Transport Nat := fun _ =>
  .response ⟨s, some "z", .obj none none none⟩

/-- One call of `request_with_retry` with budget `mr` against `constTransport s`. -/
def constRun (s mr : Nat) : RwrRun Nat :=
  request_with_retry (constTransport s) "GET" "u" [] none [] mr 1 (fun _ => 0) 0

/-- Mock for C5: every page answers 200 with a JSON object that has no
`rows` field. -/
def transportC5 : Transport Nat := fun _ => .response ⟨200, none, .obj none none none⟩

/-- The run of the collector against `transportC5`. -/
def runC5 : FetchRun Nat :=
  fetch_all_items_robust transportC5 (fun _ => 0) "ua" "u" (some []) 3 10 0

/-- A transport on which every physical request raises the same fault. -/
def faultT : Transport Nat := fun _ => .fault ⟨"boom"⟩

/-- Mixed failing transport for the C6 witness: the first physical request
raises a transport fault, every later one answers with a retryable 500. -/
def mixedT : Transport Nat := fun i =>
  if i = 0 then .fault ⟨"boom"⟩ else .response ⟨500, none, .obj none none none⟩

/-- The underlying cause of each failing attempt against `mixedT`. -/
def causeC6 : Nat → Exn := fun i =>
  if i = 0 then .transport ⟨"boom"⟩ else .httpError 500

/-- Jitter draws for the C7 counterexample: 9/10 on the first draw, 0 after. -/
def jitterC7 : Nat → ℚ := fun i => if i = 0 then 9 / 10 else 0

/-- Run for the C7 counterexample: budget 2, backoff factor 1/2, all attempts
fault, jitter `jitterC7`. -/
def runC7 : RwrRun Nat :=
  request_with_retry faultT "GET" "u" [] none [] 2 (1 / 2) jitterC7 0

/-- Run for the C7 witness: budget 2, backoff factor 1, zero jitter. -/
def runC7w : RwrRun Nat :=
  request_with_retry faultT "GET" "u" [] none [] 2 1 (fun _ => 0) 0

/-- Rows served for page `p` in the C8 mock: 10, 10, 5 rows on pages 1-3. -/
def rowsC8 (p : Nat) : List Nat :=
  if p = 1 then [0, 1, 2, 3, 4, 5, 6, 7, 8, 9]
  else if p = 2 then [10, 11, 12, 13, 14, 15, 16, 17, 18, 19]
  else if p = 3 then [20, 21, 22, 23, 24]
  else []

/-- Mock for C8: every envelope reports `total = 25`, `pageSize = 10`. -/
def transportC8 : Transport Nat := fun n =>
  .response ⟨200, none, .obj (some (rowsC8 (n + 1))) (some 25) (some 10)⟩

/-- The run of the collector against `transportC8`. -/
def runC8 : FetchRun Nat :=
  fetch_all_items_robust transportC8 (fun _ => 0) "agent" "base" (some []) 3 10 0

/-- Caller-supplied params dict used by the C10 witness. -/
def dC10 : Dict := [("q", .str "x")]

/-- The run of the collector against `transportC5` with caller params `dC10`. -/
def runC10 : FetchRun Nat :=
  fetch_all_items_robust transportC5 (fun _ => 0) "ua" "u" (some dC10) 3 10 0

/-!
### Shared helper lemmas
-/

/-- `math.ceil(a / b)` is nonpositive when `a ≤ 0 < b`. -/
theorem ceilDiv_nonpos {a b : Int} (ha : a ≤ 0) (hb : 0 < b) : ceilDiv a b ≤ 0 := by
  have h : 0 ≤ (-a).fdiv b := Int.fdiv_nonneg (by omega) (le_of_lt hb)
  unfold ceilDiv
  omega

/-- Reading a concrete position of a map over `List.range`. -/
theorem getD_map_range (f : Nat → ℚ) (m k : Nat) (hk : k < m) :
    ((List.range m).map f).getD k 0 = f k := by
  rw [List.getD_eq_getElem?_getD, List.getElem?_map, List.getElem?_range hk]
  rfl

/-- The redirect loop does nothing on a non-redirect response. -/
theorem redirectLoop_done (transport : Transport α) (method : String)
    (headers : Dict) (reqData : Option String) (rparams : Dict) (fuel n rc : Nat)
    (res : Response α) (h301 : res.status ≠ 301) (h307 : res.status ≠ 307) :
    redirectLoop transport method headers reqData rparams fuel n res rc
      = (n, [], .done res) := by
  cases fuel with
  | zero => rw [redirectLoop]
  | succ f =>
    rw [redirectLoop]
    rw [if_neg (by simp [h301, h307])]

/-- A non-redirect response makes one attempt end with the response when its
status is outside 400-599 and with the caught `requests.HTTPError` otherwise,
after exactly one physical request. -/
theorem attemptOnce_response (transport : Transport α) (method url : String)
    (headers : Dict) (reqData : Option String) (rparams : Dict) (n : Nat)
    (res : Response α) (hT : transport n = .response res)
    (h301 : res.status ≠ 301) (h307 : res.status ≠ 307) :
    attemptOnce transport method url headers reqData rparams n
      = (n + 1, [⟨method, url, headers, reqData, rparams⟩],
         if 400 ≤ res.status ∧ res.status < 600 then .exn (.httpError res.status)
         else .ok res) := by
  unfold attemptOnce
  rw [hT]
  dsimp only
  rw [redirectLoop_done transport method headers reqData rparams 7 (n + 1) 0 res
    h301 h307]
  dsimp only
  by_cases h : 400 ≤ res.status ∧ res.status < 600
  · rw [if_pos h, if_pos h]
  · rw [if_neg h, if_neg h]

/-- A successful first attempt: when the transport answers request `n` with a
non-redirect response whose status is outside 400-599, `request_with_retry`
returns that response after one physical request, with no backoff delays. -/
theorem request_with_retry_ok (transport : Transport α) (method url : String)
    (headers : Dict) (reqData : Option String) (rparams : Dict) (maxRetries : Nat)
    (backoff : ℚ) (jitter : Nat → ℚ) (n : Nat) (res : Response α)
    (hT : transport n = .response res) (h301 : res.status ≠ 301)
    (h307 : res.status ≠ 307) (hok : ¬ (400 ≤ res.status ∧ res.status < 600)) :
    request_with_retry transport method url headers reqData rparams maxRetries
        backoff jitter n
      = ⟨n + 1, [⟨method, url, headers, reqData, rparams⟩], [], .ok res⟩ := by
  unfold request_with_retry
  rw [retryLoop]
  rw [if_pos (Nat.zero_le maxRetries)]
  rw [attemptOnce_response transport method url headers reqData rparams n res hT
    h301 h307]
  rw [if_neg hok]

/-- Every attempt against a transport that always faults issues one physical
request and ends in the caught transport exception. -/
theorem attemptOnce_fault (transport : Transport α) (method url : String)
    (headers : Dict) (reqData : Option String) (rparams : Dict) (f : Nat → Fault)
    (hT : ∀ i, transport i = .fault (f i)) (n : Nat) :
    attemptOnce transport method url headers reqData rparams n
      = (n + 1, [⟨method, url, headers, reqData, rparams⟩], .exn (.transport (f n))) := by
  unfold attemptOnce
  rw [hT n]

/-- Every attempt against a transport that always answers with the same fixed
non-redirect 4xx/5xx status issues one physical request and ends in the caught
`requests.HTTPError` from `raise_for_status`. -/
theorem attemptOnce_httpError (s : Nat) (method url : String) (headers : Dict)
    (reqData : Option String) (rparams : Dict) (h301 : s ≠ 301) (h307 : s ≠ 307)
    (h4 : 400 ≤ s) (h6 : s < 600) (n : Nat) :
    attemptOnce (α := Nat) (constTransport s) method url headers reqData rparams n
      = (n + 1, [⟨method, url, headers, reqData, rparams⟩], .exn (.httpError s)) := by
  rw [attemptOnce_response (constTransport s) method url headers reqData rparams n
    ⟨s, some "z", .obj none none none⟩ rfl h301 h307]
  rw [if_pos ⟨h4, h6⟩]

/-- When every iteration of the retry loop ends in a caught exception, the
loop runs its fuel down completely: it re-issues the same physical request
once per iteration, sleeps the exponential-backoff delays in between, and
finally re-raises the last exception with the exhaustion message. -/
theorem retryLoop_exn (transport : Transport α) (method url : String)
    (headers : Dict) (reqData : Option String) (rparams : Dict) (maxRetries : Nat)
    (backoff : ℚ) (jitter : Nat → ℚ) (e : Nat → Exn)
    (hA : ∀ n, attemptOnce transport method url headers reqData rparams n
      = (n + 1, [⟨method, url, headers, reqData, rparams⟩], .exn (e n))) :
    ∀ fuel rc n, rc + fuel = maxRetries + 1 → 0 < fuel →
      retryLoop transport method url headers reqData rparams maxRetries backoff
          jitter fuel n rc
        = ⟨n + fuel, List.replicate fuel ⟨method, url, headers, reqData, rparams⟩,
           (List.range' rc (fuel - 1)).map (fun i => backoff * 2 ^ i + jitter i),
           .raised (exhaustMsg maxRetries url) (e (n + fuel - 1))⟩ := by
  intro fuel
  induction fuel with
  | zero => intro rc n _ h0; exact absurd h0 (by omega)
  | succ f ih =>
    intro rc n hsum _
    rw [retryLoop]
    rw [if_pos (show rc ≤ maxRetries by omega)]
    rw [hA n]
    dsimp only
    cases f with
    | zero =>
      rw [if_pos (show rc + 1 > maxRetries by omega)]
      simp
    | succ f1 =>
      rw [if_neg (show ¬ rc + 1 > maxRetries by omega)]
      rw [ih (rc + 1) (n + 1) (by omega) (by omega)]
      dsimp only
      simp only [RwrRun.mk.injEq]
      refine ⟨by omega, ?_, ?_, ?_⟩
      · simp [List.replicate_succ]
      · simp [List.range'_succ]
      · rw [show n + 1 + (f1 + 1) - 1 = n + (f1 + 1 + 1) - 1 from by omega]

/-- One pagination step on a 200 envelope with non-empty rows: the collector
appends the rows and then either stops (when the effective page size is
positive and `current_page >= ceil(total / page_size)`) or recurses with the
next page number. -/
theorem fetchLoop_step_obj (transport : Transport α) (jitter : Nat → ℚ)
    (base_url : String) (d hdrs : Dict) (fuel n page : Nat) (acc : List α)
    (loc : Option String) (a : α) (tl : List α) (totalOpt psOpt : Option Int)
    (hT : transport n = .response ⟨200, loc, .obj (some (a :: tl)) totalOpt psOpt⟩) :
    fetchLoop transport jitter base_url d hdrs (fuel + 1) n page acc
      = if 0 < pageSizeUsed (a :: tl) psOpt ∧
            (page : Int) ≥ ceilDiv (totalOpt.getD 0) (pageSizeUsed (a :: tl) psOpt)
        then
          ([⟨"GET", base_url, hdrs, none, dictSet d "page" (.int (page : Int))⟩],
           some (.ok (acc ++ a :: tl)))
        else
          ((⟨"GET", base_url, hdrs, none,
              dictSet d "page" (.int (page : Int))⟩ : PhysReq) ::
             (fetchLoop transport jitter base_url d hdrs fuel (n + 1) (page + 1)
               (acc ++ a :: tl)).1,
           (fetchLoop transport jitter base_url d hdrs fuel (n + 1) (page + 1)
             (acc ++ a :: tl)).2) := by
  rw [fetchLoop]
  have hrw := request_with_retry_ok transport "GET" base_url hdrs none
    (dictSet d "page" (.int (page : Int))) 3 1 jitter n
    ⟨200, loc, .obj (some (a :: tl)) totalOpt psOpt⟩ hT
    (show (200 : Nat) ≠ 301 by decide) (show (200 : Nat) ≠ 307 by decide)
    (show ¬ (400 ≤ (200 : Nat) ∧ (200 : Nat) < 600) by omega)
  rw [hrw]
  rfl

/-!
### C1 - termination when `total` is 0 or absent
-/

/-- C1: the claim is false on the code.  Against a mock returning non-empty
rows for pages 1 and 2, an empty page 3, and no `total` field, the claim
predicts 3 requests and the rows of pages 1 and 2; the collector instead
computes `total_pages = ceil(0 / page_size) = 0`, satisfies
`current_page >= total_pages` on page 1, and stops after a single request
with only page 1's rows. -/
theorem C1_counterexample :
    runC1.outcome = some (.ok [1, 2]) ∧ runC1.requests.length = 1 ∧
    ¬ (runC1.outcome = some (.ok [1, 2, 3, 4]) ∧ runC1.requests.length = 3) := by
  decide

/-- C1 (amended): when the first page's envelope has `total` absent or ≤ 0,
non-empty rows, and a positive effective page size (`pageSize` absent or
positive), `fetch_all_items_robust` terminates via the total/pageSize
computation immediately after page 1: it issues exactly one request and
returns exactly page 1's rows.  The empty-page sentinel is relied on only
when the effective page size is not positive. -/
theorem C1_zero_total_stops_after_page_one (transport : Transport Nat)
    (jitter : Nat → ℚ) (ua base_url : String) (d : Dict) (mr fuel n : Nat)
    (loc : Option String) (rows : List Nat) (totalOpt psOpt : Option Int)
    (hT : transport n = .response ⟨200, loc, .obj (some rows) totalOpt psOpt⟩)
    (hrows : rows ≠ [])
    (htot : totalOpt.getD 0 ≤ 0)
    (hps : 0 < pageSizeUsed rows psOpt) :
    fetch_all_items_robust transport jitter ua base_url (some d) mr (fuel + 1) n
      = ⟨[⟨"GET", base_url, [("user-agent", .str ua)], none,
            dictSet d "page" (.int 1)⟩],
         some (.ok rows), d⟩ := by
  unfold fetch_all_items_robust
  dsimp only [Option.getD_some]
  obtain ⟨a, tl, rfl⟩ := List.exists_cons_of_ne_nil hrows
  rw [fetchLoop_step_obj transport jitter base_url d [("user-agent", .str ua)]
    fuel n 1 [] loc a tl totalOpt psOpt hT]
  have hceil : ceilDiv (totalOpt.getD 0) (pageSizeUsed (a :: tl) psOpt) ≤ 0 :=
    ceilDiv_nonpos htot hps
  rw [if_pos ⟨hps, by push_cast; omega⟩]
  simp

/-- Witness for C1: the amended theorem applied to the concrete two-page
mock `transportC1`. -/
theorem C1_witness :
    fetch_all_items_robust transportC1 (fun _ => 0) "ua" "u" (some []) 3 10 0
      = ⟨[⟨"GET", "u", [("user-agent", .str "ua")], none, [("page", .int 1)]⟩],
         some (.ok [1, 2]), []⟩ :=
  C1_zero_total_stops_after_page_one transportC1 (fun _ => 0) "ua" "u" [] 3 9 0
    none [1, 2] none none rfl (by decide) (by decide) (by decide)

/-!
### C2 - which page size the termination computation uses
-/

/-- C2: the claim is false on the code.  When `pageSize` is present but 0 the
code uses 0 (skipping the total/pageSize check), not `len(rows)` as claimed:
against a mock whose page 1 reports `total = 3`, `pageSize = 0` and 3 rows,
the spec's selection would give `totalPages = ceil(3/3) = 1` and stop after
one request, but the collector issues a second request. -/
theorem C2_counterexample :
    pageSizeUsed ([1, 2, 3] : List Nat) (some 0)
      ≠ pageSizeSpec ([1, 2, 3] : List Nat) (some 0) ∧
    runC2.requests.length = 2 ∧ runC2.outcome = some (.ok [1, 2, 3]) := by
  decide

/-- C2 (amended): the page size used by the termination computation equals
`envelope.pageSize` whenever the field is present — including 0 — and
`len(rows)` only when it is absent; when that value is not positive, the
total/pageSize computation is skipped (no division happens) and the
collector requests the next page. -/
theorem C2_page_size_selection :
    (∀ (rows : List Nat) (psOpt : Option Int),
       pageSizeUsed rows psOpt =
         match psOpt with
         | some p => p
         | none => (rows.length : Int)) ∧
    (∀ (transport : Transport Nat) (jitter : Nat → ℚ) (base_url : String)
       (d hdrs : Dict) (fuel n page : Nat) (acc : List Nat) (loc : Option String)
       (rows : List Nat) (totalOpt psOpt : Option Int),
       transport n = .response ⟨200, loc, .obj (some rows) totalOpt psOpt⟩ →
       rows ≠ [] →
       pageSizeUsed rows psOpt ≤ 0 →
       fetchLoop transport jitter base_url d hdrs (fuel + 1) n page acc
         = (⟨"GET", base_url, hdrs, none, dictSet d "page" (.int (page : Int))⟩ ::
              (fetchLoop transport jitter base_url d hdrs fuel (n + 1) (page + 1)
                (acc ++ rows)).1,
            (fetchLoop transport jitter base_url d hdrs fuel (n + 1) (page + 1)
              (acc ++ rows)).2)) := by
  constructor
  · intro rows psOpt
    cases psOpt <;> rfl
  · intro transport jitter base_url d hdrs fuel n page acc loc rows totalOpt psOpt
      hT hrows hps
    obtain ⟨a, tl, rfl⟩ := List.exists_cons_of_ne_nil hrows
    rw [fetchLoop_step_obj transport jitter base_url d hdrs fuel n page acc loc a
      tl totalOpt psOpt hT]
    rw [if_neg (fun hcon => absurd hcon.1 (by omega))]

/-- Witness for C2: the amended theorem applied to the concrete mock
`transportC2` (page 1: 3 rows, `total = 3`, explicit `pageSize = 0`). -/
theorem C2_witness :
    pageSizeUsed ([1, 2, 3] : List Nat) (some 0) = 0 ∧
    fetchLoop transportC2 (fun _ => 0) "u" [] [("user-agent", .str "ua")] 10 0 1 []
      = (⟨"GET", "u", [("user-agent", .str "ua")], none, [("page", .int 1)]⟩ ::
           (fetchLoop transportC2 (fun _ => 0) "u" [] [("user-agent", .str "ua")]
             9 1 2 [1, 2, 3]).1,
         (fetchLoop transportC2 (fun _ => 0) "u" [] [("user-agent", .str "ua")]
           9 1 2 [1, 2, 3]).2) :=
  ⟨C2_page_size_selection.1 [1, 2, 3] (some 0),
   C2_page_size_selection.2 transportC2 (fun _ => 0) "u" []
     [("user-agent", .str "ua")] 9 0 1 [] none [1, 2, 3] (some 3) (some 0) rfl
     (by decide) (by decide)⟩

/-!
### C5 - decode failures and missing `rows`
-/

/-- C5: the claim is false on the code.  A 200 response whose body is a JSON
object without a `rows` field does not produce a decode error: `data.get`
defaults `rows` to `[]`, so the page is treated as the empty-page sentinel
and the collection terminates successfully after that one request. -/
theorem C5_counterexample :
    runC5.outcome = some (.ok []) ∧ runC5.requests.length = 1 ∧
    runC5.outcome ≠ some (.decodeError) := by
  decide

/-- C5 (amended): a 2xx response whose body is not valid JSON makes the
collector fail with the re-raised decode error immediately, after exactly one
request for that page, with no retry and no skipping; but a 2xx response whose
body is a JSON object lacking `rows` is treated as an empty page and
terminates the collection successfully with the rows accumulated so far. -/
theorem C5_decode_error_immediate :
    (∀ (transport : Transport Nat) (jitter : Nat → ℚ) (base_url : String)
       (d hdrs : Dict) (fuel n page : Nat) (acc : List Nat) (loc : Option String),
       transport n = .response ⟨200, loc, .notJson⟩ →
       fetchLoop transport jitter base_url d hdrs (fuel + 1) n page acc
         = ([⟨"GET", base_url, hdrs, none, dictSet d "page" (.int (page : Int))⟩],
            some .decodeError)) ∧
    (∀ (transport : Transport Nat) (jitter : Nat → ℚ) (base_url : String)
       (d hdrs : Dict) (fuel n page : Nat) (acc : List Nat) (loc : Option String)
       (totalOpt psOpt : Option Int),
       transport n = .response ⟨200, loc, .obj none totalOpt psOpt⟩ →
       fetchLoop transport jitter base_url d hdrs (fuel + 1) n page acc
         = ([⟨"GET", base_url, hdrs, none, dictSet d "page" (.int (page : Int))⟩],
            some (.ok acc))) := by
  constructor
  · intro transport jitter base_url d hdrs fuel n page acc loc hT
    rw [fetchLoop]
    have hrw := request_with_retry_ok transport "GET" base_url hdrs none
      (dictSet d "page" (.int (page : Int))) 3 1 jitter n ⟨200, loc, .notJson⟩ hT
      (show (200 : Nat) ≠ 301 by decide) (show (200 : Nat) ≠ 307 by decide)
      (show ¬ (400 ≤ (200 : Nat) ∧ (200 : Nat) < 600) by omega)
    rw [hrw]
  · intro transport jitter base_url d hdrs fuel n page acc loc totalOpt psOpt hT
    rw [fetchLoop]
    have hrw := request_with_retry_ok transport "GET" base_url hdrs none
      (dictSet d "page" (.int (page : Int))) 3 1 jitter n
      ⟨200, loc, .obj none totalOpt psOpt⟩ hT
      (show (200 : Nat) ≠ 301 by decide) (show (200 : Nat) ≠ 307 by decide)
      (show ¬ (400 ≤ (200 : Nat) ∧ (200 : Nat) < 600) by omega)
    rw [hrw]
    rfl

/-- Witness for C5: the amended theorem applied to a transport whose page-1
body is a JSON object with no `rows` field (second part), checked against the
concrete run. -/
theorem C5_witness :
    fetchLoop transportC5 (fun _ => 0) "u" [] [("user-agent", .str "ua")] 10 0 1 []
      = ([⟨"GET", "u", [("user-agent", .str "ua")], none, [("page", .int 1)]⟩],
         some (.ok [])) :=
  C5_decode_error_immediate.2 transportC5 (fun _ => 0) "u" []
    [("user-agent", .str "ua")] 9 0 1 [] none none none rfl

/-!
### C3 - redirect budget
-/

/-- C3: the claim is false on the code.  The guard
`redirect_count <= 5` admits six follow-ups, so on a chain of 7 consecutive
301 responses the code issues 7 physical requests (initial + 6 follows) and
returns the 7th redirect response; the claim predicts at most 6 requests
(initial + 5 follows) with the 6th redirect returned as-is. -/
theorem C3_counterexample :
    (chainRun 7).requests.length = 7 ∧
    (chainRun 7).result = .ok ⟨301, some (urlAt 7), .obj none none none⟩ ∧
    ¬ ((chainRun 7).requests.length ≤ 6) := by
  decide

/-- C3 (amended): within one attempt, 301/307 responses are followed to the
`Location` URL at most 6 times: a chain of `r ≤ 6` redirects ending in a 200
yields that 200 after `r + 1` physical requests, and a 7th consecutive
redirect response is returned as-is without being followed and without an
error being raised. -/
theorem C3_redirect_budget (r : Nat) :
    (r ≤ 6 → (chainRun r).requests.length = r + 1 ∧
       (chainRun r).result = .ok ⟨200, none, .obj none none none⟩) ∧
    (r = 7 → (chainRun r).requests.length = 7 ∧
       (chainRun r).result = .ok ⟨301, some (urlAt 7), .obj none none none⟩) := by
  constructor
  · intro hr
    interval_cases r <;> decide
  · rintro rfl
    decide

/-- Witness for C3: a chain of 3 redirects ending in a 200 is followed to the
200, with 4 physical requests. -/
theorem C3_witness :
    (chainRun 3).requests.length = 3 + 1 ∧
    (chainRun 3).result = .ok ⟨200, none, .obj none none none⟩ :=
  (C3_redirect_budget 3).1 (by decide)

/-!
### C4 - which final statuses are returned vs retried
-/

/-- C4: the claim is false on the code.  A 302 response is not in the
redirect set and not a 2xx, yet `raise_for_status` does not raise on it, so
`request_with_retry` returns it immediately after one request instead of
treating it as a retryable failure. -/
theorem C4_counterexample :
    (constRun 302 3).result = .ok ⟨302, some "z", .obj none none none⟩ ∧
    (constRun 302 3).requests.length = 1 ∧
    ¬ ((302 : Nat) / 100 = 2) := by
  decide

/-- C4 (amended): after redirect handling, the response is returned
immediately if and only if its status is outside 400-599: every status below
400 (including non-followed 3xx codes such as 302) and every status of 600 or
above is returned as-is after one request, while statuses in 400-599 are
retried against the budget and finally re-raised. -/
theorem C4_success_iff_not_4xx5xx (s mr : Nat) (h301 : s ≠ 301) (h307 : s ≠ 307) :
    ((s < 400 ∨ 600 ≤ s) →
       constRun s mr = ⟨1, [⟨"GET", "u", [], none, []⟩], [],
         .ok ⟨s, some "z", .obj none none none⟩⟩) ∧
    (400 ≤ s → s < 600 →
       (constRun s mr).requests.length = mr + 1 ∧
       (constRun s mr).result = .raised (exhaustMsg mr "u") (.httpError s)) := by
  constructor
  · intro hs
    unfold constRun
    exact request_with_retry_ok (constTransport s) "GET" "u" [] none [] mr 1
      (fun _ => 0) 0 ⟨s, some "z", .obj none none none⟩ rfl h301 h307
      (show ¬ (400 ≤ s ∧ s < 600) from by rcases hs with h | h <;> omega)
  · intro h4 h6
    have hA : ∀ n, attemptOnce (constTransport s) "GET" "u" [] none [] n
        = (n + 1, [⟨"GET", "u", [], none, []⟩], .exn (.httpError s)) :=
      fun n => attemptOnce_httpError s "GET" "u" [] none [] h301 h307 h4 h6 n
    have h := retryLoop_exn (constTransport s) "GET" "u" [] none [] mr 1
      (fun _ => 0) (fun _ => .httpError s) hA (mr + 1) 0 0 (by omega) (by omega)
    unfold constRun request_with_retry
    rw [h]
    exact ⟨by simp, rfl⟩

/-- Witness for C4: a constant 404 with budget 2 is retried into exhaustion
(3 attempts) and re-raised as the HTTP error. -/
theorem C4_witness :
    (constRun 404 2).requests.length = 2 + 1 ∧
    (constRun 404 2).result = .raised (exhaustMsg 2 "u") (.httpError 404) :=
  (C4_success_iff_not_4xx5xx 404 2 (by decide) (by decide)).2 (by decide) (by decide)

/-!
### C6 - retry exhaustion surfaces the last cause after maxRetries + 1 attempts
-/

/-- C6: when every attempt fails — each being answered either by a
transport-level fault or by a non-redirect response with a retryable 4xx/5xx
status (mixed sequences allowed, `cause i` naming the exception attempt `i`
is caught with) — `request_with_retry` makes exactly `maxRetries + 1`
attempts (each issuing one physical request) and only then fails, re-raising
the underlying cause of the last attempt together with the logged exhaustion
message that carries the retry count; no error surfaces before the budget is
exhausted. -/
theorem C6_retry_exhaustion (transport : Transport Nat) (cause : Nat → Exn)
    (hT : ∀ i, (∃ f : Fault, transport i = .fault f ∧ cause i = .transport f) ∨
      (∃ r : Response Nat, transport i = .response r ∧ r.status ≠ 301 ∧
        r.status ≠ 307 ∧ 400 ≤ r.status ∧ r.status < 600 ∧
        cause i = .httpError r.status))
    (method url : String) (headers : Dict) (reqData : Option String)
    (rparams : Dict) (maxRetries : Nat) (backoff : ℚ) (jitter : Nat → ℚ)
    (n0 : Nat) :
    (request_with_retry transport method url headers reqData rparams maxRetries
        backoff jitter n0).requests.length = maxRetries + 1 ∧
    (request_with_retry transport method url headers reqData rparams maxRetries
        backoff jitter n0).result
      = .raised (exhaustMsg maxRetries url) (cause (n0 + maxRetries)) := by
  have hA : ∀ n, attemptOnce transport method url headers reqData rparams n
      = (n + 1, [⟨method, url, headers, reqData, rparams⟩], .exn (cause n)) := by
    intro n
    rcases hT n with ⟨f, hf, hc⟩ | ⟨r, hr, h301, h307, h4, h6, hc⟩
    · unfold attemptOnce
      rw [hf, hc]
    · rw [attemptOnce_response transport method url headers reqData rparams n r
        hr h301 h307]
      rw [if_pos ⟨h4, h6⟩, hc]
  have h := retryLoop_exn transport method url headers reqData rparams maxRetries
    backoff jitter cause hA (maxRetries + 1) 0 n0 (by omega) (by omega)
  unfold request_with_retry
  rw [h]
  refine ⟨by simp, ?_⟩
  dsimp only
  rw [show n0 + (maxRetries + 1) - 1 = n0 + maxRetries from by omega]

/-- Witness for C6: a mixed failing sequence (attempt 1 raises a transport
fault, attempts 2 and 3 end in a retryable 500) with budget 2: 3 attempts and
the re-raised HTTP error of the last attempt. -/
theorem C6_witness :
    (request_with_retry mixedT "GET" "u" [] none [] 2 1 (fun _ => 0) 0).requests.length
      = 2 + 1 ∧
    (request_with_retry mixedT "GET" "u" [] none [] 2 1 (fun _ => 0) 0).result
      = .raised (exhaustMsg 2 "u") (.httpError 500) :=
  C6_retry_exhaustion mixedT causeC6
    (fun i => by
      by_cases hi : i = 0
      · exact Or.inl ⟨⟨"boom"⟩, by rw [hi]; rfl, by rw [hi]; rfl⟩
      · exact Or.inr ⟨⟨500, none, .obj none none none⟩, by simp [mixedT, hi],
          by decide, by decide, by decide, by decide, by simp [causeC6, hi]⟩)
    "GET" "u" [] none [] 2 1 (fun _ => 0) 0

/-!
### C7 - backoff delay sequence
-/

/-- C7: the claim is false on the code for backoff factors below 1.  With
`backoff_factor = 1/2`, budget 2, a first jitter draw of 9/10 and a second of
0 (both in `[0, 1)`), the two delays are `[7/5, 1]`, which decreases between
the first and second failed attempt. -/
theorem C7_counterexample :
    (0 : ℚ) < 1 / 2 ∧ 2 ≤ (2 : Nat) ∧
    (0 ≤ jitterC7 0 ∧ jitterC7 0 < 1) ∧ (0 ≤ jitterC7 1 ∧ jitterC7 1 < 1) ∧
    runC7.delays = [7 / 5, 1] ∧
    ¬ (runC7.delays.getD 0 0 ≤ runC7.delays.getD 1 0) := by
  have hA : ∀ n, attemptOnce faultT "GET" "u" [] none [] n
      = (n + 1, [⟨"GET", "u", [], none, []⟩], .exn (.transport ⟨"boom"⟩)) :=
    fun n => attemptOnce_fault faultT "GET" "u" [] none [] (fun _ => ⟨"boom"⟩)
      (fun _ => rfl) n
  have h := retryLoop_exn faultT "GET" "u" [] none [] 2 (1 / 2) jitterC7
    (fun _ => .transport ⟨"boom"⟩) hA 3 0 0 (by omega) (by omega)
  have hd : runC7.delays
      = (List.range 2).map (fun i => (1 / 2 : ℚ) * 2 ^ i + jitterC7 i) := by
    unfold runC7 request_with_retry
    rw [h]
    rw [List.range_eq_range' 2]
  refine ⟨by norm_num, by norm_num, ⟨by norm_num [jitterC7], by norm_num [jitterC7]⟩,
    ⟨by norm_num [jitterC7], by norm_num [jitterC7]⟩, ?_, ?_⟩
  · rw [hd]
    simp only [List.range_succ, List.range_zero]
    norm_num [jitterC7]
  · rw [hd]
    rw [getD_map_range _ 2 0 (by omega), getD_map_range _ 2 1 (by omega)]
    norm_num [jitterC7]

/-- C7 (amended): for every positive backoff factor and jitter draws in
`[0, 1)`, the backoff delays computed across successive failed attempts are
all strictly positive; and whenever the backoff factor is at least 1 (as the
default 1.0 is), the delay sequence is also non-decreasing from one attempt
to the next.  For factors strictly between 0 and 1 monotonicity can fail, as
the counterexample shows. -/
theorem C7_backoff_delays (transport : Transport Nat) (f : Nat → Fault)
    (hT : ∀ i, transport i = .fault (f i)) (method url : String) (headers : Dict)
    (reqData : Option String) (rparams : Dict) (maxRetries : Nat) (b : ℚ)
    (jitter : Nat → ℚ) (hb : 0 < b) (hj : ∀ i, 0 ≤ jitter i ∧ jitter i < 1)
    (n0 : Nat) :
    (∀ k, k < (request_with_retry transport method url headers reqData rparams
          maxRetries b jitter n0).delays.length →
       0 < (request_with_retry transport method url headers reqData rparams
          maxRetries b jitter n0).delays.getD k 0) ∧
    (1 ≤ b → ∀ k, k + 1 < (request_with_retry transport method url headers
          reqData rparams maxRetries b jitter n0).delays.length →
       (request_with_retry transport method url headers reqData rparams
          maxRetries b jitter n0).delays.getD k 0
         ≤ (request_with_retry transport method url headers reqData rparams
          maxRetries b jitter n0).delays.getD (k + 1) 0) := by
  have hA : ∀ n, attemptOnce transport method url headers reqData rparams n
      = (n + 1, [⟨method, url, headers, reqData, rparams⟩],
         .exn (.transport (f n))) :=
    fun n => attemptOnce_fault transport method url headers reqData rparams f hT n
  have h := retryLoop_exn transport method url headers reqData rparams maxRetries
    b jitter (fun i => .transport (f i)) hA (maxRetries + 1) 0 n0 (by omega)
    (by omega)
  have hd : (request_with_retry transport method url headers reqData rparams
        maxRetries b jitter n0).delays
      = (List.range maxRetries).map (fun i => b * 2 ^ i + jitter i) := by
    unfold request_with_retry
    rw [h]
    rw [List.range_eq_range' maxRetries]
    rfl
  constructor
  · intro k hk
    rw [hd] at hk ⊢
    have hklt : k < maxRetries := by simpa using hk
    rw [getD_map_range _ _ _ hklt]
    have h1 : (0 : ℚ) < b * 2 ^ k := mul_pos hb (pow_pos (by norm_num) k)
    have h2 := (hj k).1
    linarith
  · intro hb1 k hk
    rw [hd] at hk ⊢
    have hklt : k + 1 < maxRetries := by simpa using hk
    rw [getD_map_range _ _ _ (by omega), getD_map_range _ _ _ hklt]
    have h1 : (1 : ℚ) ≤ 2 ^ k := one_le_pow₀ (by norm_num)
    have hbk : b * 1 ≤ b * 2 ^ k := by
      exact mul_le_mul_of_nonneg_left h1 (le_of_lt hb)
    have h2 : (2 : ℚ) ^ (k + 1) = 2 * 2 ^ k := by ring
    have hj1 := (hj k).2
    have hj2 := (hj (k + 1)).1
    rw [h2]
    nlinarith

/-- Witness for C7: with the default backoff factor 1 and zero jitter against
an always-faulting transport, the first delay is positive and the first two
delays are non-decreasing. -/
theorem C7_witness :
    0 < runC7w.delays.getD 0 0 ∧
    runC7w.delays.getD 0 0 ≤ runC7w.delays.getD 1 0 :=
  ⟨(C7_backoff_delays faultT (fun _ => ⟨"boom"⟩) (fun _ => rfl) "GET" "u" []
      none [] 2 1 (fun _ => 0) (by norm_num)
      (fun _ => ⟨le_refl 0, by norm_num⟩) 0).1 0 (by decide),
   (C7_backoff_delays faultT (fun _ => ⟨"boom"⟩) (fun _ => rfl) "GET" "u" []
      none [] 2 1 (fun _ => 0) (by norm_num)
      (fun _ => ⟨le_refl 0, by norm_num⟩) 0).2 le_rfl 0 (by decide)⟩

/-!
### C8 - termination via total and pageSize
-/

/-- C8: against a mock where every envelope reports `total = 25`,
`pageSize = 10` and pages 1, 2, 3 carry 10, 10, 5 rows, the collector issues
exactly 3 requests with page parameter 1, 2, 3 in that order and returns the
25 records in page order. -/
theorem C8_total_pagesize_pagination :
    runC8.requests.map (fun r => r.params)
      = [[("page", .int 1)], [("page", .int 2)], [("page", .int 3)]] ∧
    runC8.outcome = some (.ok (List.range 25)) := by
  decide

/-!
### C9 - max_retries is dead
-/

/-- C9: the `max_retries` argument of `fetch_all_items_robust` has no effect
on behavior: two calls that differ only in it produce identical runs (same
requests, same outcome, same final params), because the argument is never
forwarded to `request_with_retry`, which always runs with its default
budget 3. -/
theorem C9_max_retries_has_no_effect (transport : Transport Nat)
    (jitter : Nat → ℚ) (ua base_url : String) (params : Option Dict)
    (mr1 mr2 fuel n : Nat) :
    fetch_all_items_robust transport jitter ua base_url params mr1 fuel n
      = fetch_all_items_robust transport jitter ua base_url params mr2 fuel n :=
  rfl

/-!
### C10 - the caller's params dict is never mutated
-/

/-- Every request issued while following redirects carries the same query
params the attempt started with. -/
theorem redirectLoop_params (transport : Transport α) (method : String)
    (headers : Dict) (reqData : Option String) (rparams : Dict) :
    ∀ fuel n rc res req,
      req ∈ (redirectLoop transport method headers reqData rparams fuel n res rc).2.1 →
      req.params = rparams := by
  intro fuel
  induction fuel with
  | zero =>
    intro n rc res req h
    rw [redirectLoop] at h
    simp at h
  | succ f ih =>
    intro n rc res req h
    rw [redirectLoop] at h
    by_cases hc : (res.status = 301 ∨ res.status = 307) ∧ rc ≤ 5
    · rw [if_pos hc] at h
      cases hloc : res.location with
      | none => rw [hloc] at h; simp at h
      | some loc =>
        rw [hloc] at h
        cases ht : transport n with
        | fault f2 =>
          rw [ht] at h
          simp only [List.mem_singleton] at h
          subst h
          rfl
        | response res2 =>
          rw [ht] at h
          dsimp only at h
          rcases List.mem_cons.mp h with h1 | h2
          · subst h1; rfl
          · exact ih (n + 1) (rc + 1) res2 req h2
    · rw [if_neg hc] at h
      simp at h

/-- Every request issued during one attempt carries the query params the
attempt was called with. -/
theorem attemptOnce_params (transport : Transport α) (method url : String)
    (headers : Dict) (reqData : Option String) (rparams : Dict) (n : Nat) :
    ∀ req ∈ (attemptOnce transport method url headers reqData rparams n).2.1,
      req.params = rparams := by
  intro req h
  unfold attemptOnce at h
  cases ht : transport n with
  | fault f =>
    rw [ht] at h
    simp only [List.mem_singleton] at h
    subst h
    rfl
  | response res =>
    rw [ht] at h
    dsimp only at h
    split at h
    · rcases List.mem_cons.mp h with h1 | h2
      · subst h1; rfl
      · exact redirectLoop_params transport method headers reqData rparams 7
          (n + 1) 0 res req h2
    · rcases List.mem_cons.mp h with h1 | h2
      · subst h1; rfl
      · exact redirectLoop_params transport method headers reqData rparams 7
          (n + 1) 0 res req h2
    · split at h
      · rcases List.mem_cons.mp h with h1 | h2
        · subst h1; rfl
        · exact redirectLoop_params transport method headers reqData rparams 7
            (n + 1) 0 res req h2
      · rcases List.mem_cons.mp h with h1 | h2
        · subst h1; rfl
        · exact redirectLoop_params transport method headers reqData rparams 7
            (n + 1) 0 res req h2

/-- Every request issued across the retry loop carries the query params the
logical request was called with. -/
theorem retryLoop_params (transport : Transport α) (method url : String)
    (headers : Dict) (reqData : Option String) (rparams : Dict)
    (maxRetries : Nat) (backoff : ℚ) (jitter : Nat → ℚ) :
    ∀ fuel n rc req,
      req ∈ (retryLoop transport method url headers reqData rparams maxRetries
        backoff jitter fuel n rc).requests →
      req.params = rparams := by
  intro fuel
  induction fuel with
  | zero =>
    intro n rc req h
    rw [retryLoop] at h
    simp at h
  | succ f ih =>
    intro n rc req h
    rw [retryLoop] at h
    by_cases hrc : rc ≤ maxRetries
    · rw [if_pos hrc] at h
      dsimp only at h
      split at h
      · exact attemptOnce_params transport method url headers reqData rparams n req h
      · exact attemptOnce_params transport method url headers reqData rparams n req h
      · split at h
        · exact attemptOnce_params transport method url headers reqData rparams n req h
        · dsimp only at h
          rcases List.mem_append.mp h with h1 | h2
          · exact attemptOnce_params transport method url headers reqData rparams n req h1
          · exact ih _ (rc + 1) req h2
    · rw [if_neg hrc] at h
      simp at h

/-- Every request issued by the pagination loop carries the caller params
with only the `page` key injected (into a fresh copy, for some page index). -/
theorem fetchLoop_params (transport : Transport α) (jitter : Nat → ℚ)
    (base_url : String) (d hdrs : Dict) :
    ∀ fuel n page acc req,
      req ∈ (fetchLoop transport jitter base_url d hdrs fuel n page acc).1 →
      ∃ pg : Nat, req.params = dictSet d "page" (.int (pg : Int)) := by
  intro fuel
  induction fuel with
  | zero =>
    intro n page acc req h
    rw [fetchLoop] at h
    simp at h
  | succ f ih =>
    intro n page acc req h
    rw [fetchLoop] at h
    dsimp only at h
    have hpage : ∀ hr : req ∈ (request_with_retry transport "GET" base_url hdrs
        none (dictSet d "page" (.int (page : Int))) 3 1 jitter n).requests,
        ∃ pg : Nat, req.params = dictSet d "page" (.int (pg : Int)) := by
      intro hr
      exact ⟨page, retryLoop_params transport "GET" base_url hdrs none
        (dictSet d "page" (.int (page : Int))) 3 1 jitter 4 n 0 req hr⟩
    split at h
    · exact hpage h
    · exact hpage h
    · exact hpage h
    · split at h
      · exact hpage h
      · split at h
        · exact hpage h
        · split at h
          · exact hpage h
          · rcases List.mem_append.mp h with h1 | h2
            · exact hpage h1
            · exact ih _ (page + 1) _ req h2

/-- C10: `fetch_all_items_robust` never mutates the caller-supplied params
dict: after the call the caller's dict holds exactly the entries it held
before, and the `page` key is only ever injected into a per-iteration copy
of it (api.py line 36: `request_params = params.copy()`). -/
theorem C10_params_preserved (transport : Transport Nat) (jitter : Nat → ℚ)
    (ua base_url : String) (d : Dict) (mr fuel n : Nat) :
    (fetch_all_items_robust transport jitter ua base_url (some d) mr fuel n).finalParams
      = d ∧
    ∀ req ∈ (fetch_all_items_robust transport jitter ua base_url (some d) mr
        fuel n).requests,
      ∃ pg : Nat, req.params = dictSet d "page" (.int (pg : Int)) := by
  constructor
  · rfl
  · intro req h
    exact fetchLoop_params transport jitter base_url d
      [("user-agent", .str ua)] fuel n 1 [] req h

/-- Witness for C10: the concrete run `runC10` leaves the caller dict
`dC10` unchanged, and its single issued request carries the copied dict with
the injected `page` key. -/
theorem C10_witness :
    runC10.finalParams = dC10 ∧
    ∃ pg : Nat,
      (PhysReq.mk "GET" "u" [("user-agent", .str "ua")] none
          [("q", .str "x"), ("page", .int 1)]).params
        = dictSet dC10 "page" (.int (pg : Int)) :=
  ⟨(C10_params_preserved transportC5 (fun _ => 0) "ua" "u" dC10 3 10 0).1,
   (C10_params_preserved transportC5 (fun _ => 0) "ua" "u" dC10 3 10 0).2
     (PhysReq.mk "GET" "u" [("user-agent", .str "ua")] none
       [("q", .str "x"), ("page", .int 1)]) (by decide)⟩
